import Mathlib

/-!
Shallow embedding of the file psychopy/app/colorpicker/slider.py
(class ColorSlider), restricted to its portable, non-toolkit logic:
the slider state, the mouse-to-value mapping in OnMouseEvent, the
inverse mapping in SetValue, the value accessors, and the three
registration functions with their callable checks.

Modelling conventions:
- Python floats are modelled as exact rationals (Rat).  All quantities
  involved in the claims are small integers and quotients thereof, so
  no rounding behaviour of IEEE doubles is relevant to any claim.
- The Python builtin int() truncates toward zero; pyint models it.
- Python division raises ZeroDivisionError on a zero divisor; the
  embedding of OnMouseEvent therefore tests the divisor and returns an
  error value exactly where the source would raise, with the state as
  it stands at the raise point (the source mutates sliderPosX before
  the division, so that mutation survives the exception).
- The widget methods Refresh and OnValueChanged have no observable
  effect on the modelled state; calls to them are recorded in an event
  trace so that claims about which hooks run can be stated.  The trace
  alphabet also has a symbol for invoking the stored _cbfunc slot; the
  source of slider.py never applies self._cbfunc, so no embedded
  operation ever emits that symbol.
-/

namespace ColorSlider

/-- Python int() applied to a float: truncation toward zero. -/
def pyint (q : Rat) : Int := if 0 ≤ q then ⌊q⌋ else ⌈q⌉

/-- Exceptions the embedded methods can raise. -/
inductive PyErr where
  | typeError
  | zeroDivisionError
deriving DecidableEq

/-- Observable calls a method makes on the toolkit or on itself:
a redraw request (self.Refresh()), the overridable hook
(self.OnValueChanged()), and application of the stored callback slot
(self._cbfunc).  The last never occurs in slider.py. -/
inductive Call where
  | refresh
  | onValueChanged
  | cbfuncInvoked
deriving DecidableEq

/-- A Python value passed to a registration function: either callable
(carrying its behaviour) or not callable. -/
inductive PyVal where
  | callable (f : Rat → Rat)
  | notCallable

/-- The result of the Python builtin callable() on a PyVal. -/
def PyVal.isInvocable : PyVal → Bool
  | .callable _ => true
  | .notCallable => false

/-- The mutable fields of a ColorSlider instance set in __init__:
sliderPosX = 0, sliderNormX = 0.0, _getScaleFunc = None,
_setScaleFunc = None, _cbfunc = None. -/
structure SliderState where
  sliderPosX : Int
  sliderNormX : Rat
  getScaleFunc : Option (Rat → Rat)
  setScaleFunc : Option (Rat → Rat)
  cbfunc : Option (Rat → Rat)

/-- State right after __init__. -/
def initState : SliderState :=
  { sliderPosX := 0
    sliderNormX := 0
    getScaleFunc := none
    setScaleFunc := none
    cbfunc := none }

/-- Local constant padleft = 4 of OnMouseEvent and SetValue. -/
def padleft : Int := 4

/-- Local constant padright = 4 of OnMouseEvent and SetValue. -/
def padright : Int := 4

/-- Embedding of ColorSlider.OnMouseEvent.  The client-rectangle width
and the event x-coordinate are the integer inputs; leftIsDown is the
result of event.LeftIsDown().  Returns the exception raised (if any),
the instance state after the call, and the trace of emitted calls.
Mirrors the source: inside the leftIsDown branch, bgStart = padleft,
bgEnd = width - padright - padleft, sliderPosX is set to x then clamped
by the two-branch if, then sliderNormX is assigned the float quotient
(sliderPosX - padleft) / (bgEnd - bgStart) and clamped into [0, 1];
Refresh and OnValueChanged run after (and outside) the branch. -/
def OnMouseEvent (width x : Int) (leftIsDown : Bool) (s : SliderState) :
    Option PyErr × SliderState × List Call :=
  if leftIsDown then
    let bgStart : Int := padleft
    let bgEnd : Int := width - padright - padleft
    let posX : Int :=
      if x > bgEnd then bgEnd
      else if x < bgStart then bgStart
      else x
    if bgEnd - bgStart = 0 then
      (some PyErr.zeroDivisionError, { s with sliderPosX := posX }, [])
    else
      let norm0 : Rat := ((posX - padleft : Int) : Rat) / ((bgEnd - bgStart : Int) : Rat)
      let norm : Rat :=
        if norm0 > 1 then 1
        else if norm0 < 0 then 0
        else norm0
      (none,
        { s with sliderPosX := posX, sliderNormX := norm },
        [Call.refresh, Call.onValueChanged])
  else
    (none, s, [Call.refresh, Call.onValueChanged])

/-- Embedding of ColorSlider.SetValue: scaledVal = _setScaleFunc(value)
when a set-scale transform is stored, else value; sliderNormX becomes
scaledVal; sliderPosX becomes padleft + int((bgEnd - bgStart) *
sliderNormX) with bgStart = padleft and bgEnd = width - padright -
padleft; then Refresh and OnValueChanged run.  SetValue contains no
division and cannot raise. -/
def SetValue (width : Int) (value : Rat) (s : SliderState) :
    SliderState × List Call :=
  let scaledVal : Rat :=
    match s.setScaleFunc with
    | some f => f value
    | none => value
  let s1 := { s with sliderNormX := scaledVal }
  let bgStart : Int := padleft
  let bgEnd : Int := width - padright - padleft
  let s2 := { s1 with
    sliderPosX := padleft + pyint (((bgEnd - bgStart : Int) : Rat) * scaledVal) }
  (s2, [Call.refresh, Call.onValueChanged])

/-- Embedding of ColorSlider.GetValue. -/
def GetValue (s : SliderState) : Rat :=
  match s.getScaleFunc with
  | some f => f s.sliderNormX
  | none => s.sliderNormX

/-- Embedding of ColorSlider.realize: SetValue(0.0). -/
def realize (width : Int) (s : SliderState) : SliderState × List Call :=
  SetValue width 0 s

/-- Embedding of ColorSlider.setSliderChangedCallback: raises TypeError
when the argument is not callable (leaving the instance untouched),
otherwise stores it in _cbfunc, replacing any previous callback. -/
def setSliderChangedCallback (s : SliderState) (v : PyVal) :
    Option PyErr × SliderState :=
  match v with
  | .callable f => (none, { s with cbfunc := some f })
  | .notCallable => (some PyErr.typeError, s)

/-- Embedding of ColorSlider.setGetScaleFunc: same callable check,
stores into _getScaleFunc. -/
def setGetScaleFunc (s : SliderState) (v : PyVal) :
    Option PyErr × SliderState :=
  match v with
  | .callable f => (none, { s with getScaleFunc := some f })
  | .notCallable => (some PyErr.typeError, s)

/-- Embedding of ColorSlider.setSetScaleFunc: same callable check,
stores into _setScaleFunc. -/
def setSetScaleFunc (s : SliderState) (v : PyVal) :
    Option PyErr × SliderState :=
  match v with
  | .callable f => (none, { s with setScaleFunc := some f })
  | .notCallable => (some PyErr.typeError, s)

/-! Helper characterizations of OnMouseEvent, shared by several
theorems below. -/

/-- The pixel clamp applied to the event x-coordinate inside
OnMouseEvent (the two-branch if over bgStart and bgEnd). -/
def xClamp (width x : Int) : Int :=
  if x > width - padright - padleft then width - padright - padleft
  else if x < padleft then padleft
  else x

/-- The normalized-value clamp applied inside OnMouseEvent. -/
def rClamp (r : Rat) : Rat :=
  if r > 1 then 1
  else if r < 0 then 0
  else r

/-- The raw (pre-clamp) quotient OnMouseEvent computes. -/
def normRaw (width x : Int) : Rat :=
  ((xClamp width x - padleft : Int) : Rat)
    / ((width - padright - padleft - padleft : Int) : Rat)

lemma OnMouseEvent_down_eq (width x : Int) (s : SliderState)
    (hw : width - padright - padleft - padleft ≠ 0) :
    OnMouseEvent width x true s =
      (none,
        { s with sliderPosX := xClamp width x,
                 sliderNormX := rClamp (normRaw width x) },
        [Call.refresh, Call.onValueChanged]) := by
  have hw' : ¬(width - padright - padleft - padleft = 0) := hw
  simp only [OnMouseEvent, xClamp, rClamp, normRaw, if_true]
  rw [if_neg hw']

lemma OnMouseEvent_div_zero (width x : Int) (s : SliderState)
    (hw : width - padright - padleft - padleft = 0) :
    OnMouseEvent width x true s =
      (some PyErr.zeroDivisionError, { s with sliderPosX := xClamp width x }, []) := by
  simp only [OnMouseEvent, xClamp, if_true]
  rw [if_pos hw]

lemma rClamp_nonneg (r : Rat) : 0 ≤ rClamp r := by
  unfold rClamp
  split_ifs with h1 h2
  · norm_num
  · norm_num
  · exact le_of_not_lt h2

lemma rClamp_le_one (r : Rat) : rClamp r ≤ 1 := by
  unfold rClamp
  split_ifs with h1 h2
  · norm_num
  · norm_num
  · exact le_of_not_lt h1

lemma rClamp_eq_self (r : Rat) (h0 : 0 ≤ r) (h1 : r ≤ 1) : rClamp r = r := by
  unfold rClamp
  rw [if_neg (not_lt.mpr h1), if_neg (not_lt.mpr h0)]

lemma xClamp_eq_max_min (width x : Int) (hw : 12 < width) :
    xClamp width x = max padleft (min (width - padright - padleft) x) := by
  unfold xClamp padleft padright
  split_ifs with h1 h2 <;> omega

lemma normRaw_mem (width x : Int) (hw : width - padright - padleft - padleft ≠ 0) :
    0 ≤ normRaw width x ∧ normRaw width x ≤ 1 := by
  unfold normRaw xClamp padleft padright
  unfold padleft padright at hw
  rcases lt_or_gt_of_ne (fun h : width = 12 => hw (by omega)) with hlt | hgt
  · -- width < 12 : the clamp lands on bgEnd or bgStart exactly
    have hd : ((width - 4 - 4 - 4 : Int) : Rat) < 0 := by
      have : (width - 4 - 4 - 4 : Int) < 0 := by omega
      exact_mod_cast this
    split_ifs with h1 h2
    · -- posX = bgEnd, quotient = 1
      have : ((width - 4 - 4 - 4 : Int) : Rat) ≠ 0 := ne_of_lt hd
      rw [show ((width - 4 - 4 - 4 : Int) : Rat) / ((width - 4 - 4 - 4 : Int) : Rat) = 1 from
        div_self this]
      norm_num
    · -- posX = bgStart = padleft, quotient = 0
      norm_num
    · exfalso; omega
  · -- width > 12 : numerator between 0 and the positive denominator
    have hd : (0 : Rat) < ((width - 4 - 4 - 4 : Int) : Rat) := by
      have : (0 : Int) < width - 4 - 4 - 4 := by omega
      exact_mod_cast this
    split_ifs with h1 h2
    · constructor
      · exact div_nonneg hd.le hd.le
      · rw [div_le_one hd]
    · constructor
      · norm_num
      · rw [show ((4 : Int) - 4 : Int) = 0 by norm_num]
        norm_num
    · constructor
      · apply div_nonneg _ hd.le
        have : (0 : Int) ≤ x - 4 := by omega
        exact_mod_cast this
      · rw [div_le_one hd]
        have : (x - 4 : Int) ≤ width - 4 - 4 - 4 := by omega
        exact_mod_cast this

lemma rClamp_eq_max_min (r : Rat) : rClamp r = max 0 (min 1 r) := by
  unfold rClamp
  split_ifs with h1 h2
  · rw [min_eq_left h1.le, max_eq_right zero_le_one]
  · rw [min_eq_right (le_of_not_lt h1), max_eq_left h2.le]
  · rw [min_eq_right (le_of_not_lt h1), max_eq_right (le_of_not_lt h2)]

lemma width_sub_pads (width : Int) :
    width - padright - padleft - padleft = width - 12 := by
  unfold padleft padright; omega

/-! Claim theorems. -/

/-- Claim C4: for every client width, every prior state and every event
x-coordinate (including values outside the client width), a button-down
OnMouseEvent that completes without raising leaves the stored
normalized value in the interval [0, 1]. -/
theorem claim_C4 (width x : Int) (s s' : SliderState) (calls : List Call)
    (h : OnMouseEvent width x true s = (none, s', calls)) :
    0 ≤ s'.sliderNormX ∧ s'.sliderNormX ≤ 1 := by
  by_cases hw : width - padright - padleft - padleft = 0
  · rw [OnMouseEvent_div_zero width x s hw] at h
    exact absurd (congrArg Prod.fst h) (by simp)
  · rw [OnMouseEvent_down_eq width x s hw] at h
    have hs : s' = { s with sliderPosX := xClamp width x,
                            sliderNormX := rClamp (normRaw width x) } :=
      ((Prod.mk.injEq _ _ _ _).mp ((Prod.mk.injEq _ _ _ _).mp h).2).1.symm
    rw [hs]
    exact ⟨rClamp_nonneg _, rClamp_le_one _⟩

/-- Witness for claim C4 at width 104, x = 52, from the initial state. -/
theorem claim_C4_witness :
    0 ≤ (OnMouseEvent 104 52 true initState).2.1.sliderNormX ∧
    (OnMouseEvent 104 52 true initState).2.1.sliderNormX ≤ 1 := by
  have h : OnMouseEvent 104 52 true initState =
      (none, (OnMouseEvent 104 52 true initState).2.1,
        (OnMouseEvent 104 52 true initState).2.2) := by
    rw [OnMouseEvent_down_eq 104 52 initState (by norm_num [padleft, padright])]
  exact claim_C4 104 52 initState _ _ h

/-- Claim C5: for every client width at most 8, every x-coordinate,
every button state and every prior state, OnMouseEvent completes
without raising, and the divisor it feeds to the division (bgEnd -
bgStart = width - 12) is nonzero, so no division by zero occurs.
SetValue contains no division at all (see its type: it is total and
returns no error). -/
theorem claim_C5 (width x : Int) (d : Bool) (s : SliderState)
    (hw : width ≤ 8) :
    (OnMouseEvent width x d s).1 = none ∧
    width - padright - padleft - padleft ≠ 0 := by
  have hnz : width - padright - padleft - padleft ≠ 0 := by
    unfold padleft padright; omega
  refine ⟨?_, hnz⟩
  cases d
  · rfl
  · rw [OnMouseEvent_down_eq width x s hnz]

/-- Witness for claim C5 at width 8, x = 50, button down, initial
state. -/
theorem claim_C5_witness :
    (8 : Int) ≤ 8 ∧
    (OnMouseEvent 8 50 true initState).1 = none :=
  ⟨le_refl 8, (claim_C5 8 50 true initState (le_refl 8)).1⟩

/-- Claim C6: at client width exactly 12 = padleft + padright + padleft
the divisor bgEnd - bgStart computed by OnMouseEvent is zero, and a
button-down OnMouseEvent raises ZeroDivisionError for every event
x-coordinate and every prior state: the division at the source is not
guarded. -/
theorem claim_C6 (x : Int) (s : SliderState) :
    (12 : Int) - padright - padleft - padleft = 0 ∧
    (OnMouseEvent 12 x true s).1 = some PyErr.zeroDivisionError := by
  have hz : (12 : Int) - padright - padleft - padleft = 0 := by
    unfold padleft padright; norm_num
  refine ⟨hz, ?_⟩
  rw [OnMouseEvent_div_zero 12 x s hz]

/-- Claim C8: each of the three registration functions raises exactly
when its argument is not callable, and when it raises the previously
stored callback and both scale transforms are unchanged (the whole
state is returned untouched); on a callable argument none of them
raises. -/
theorem claim_C8 (s : SliderState) (f : Rat → Rat) :
    setSliderChangedCallback s PyVal.notCallable = (some PyErr.typeError, s) ∧
    setGetScaleFunc s PyVal.notCallable = (some PyErr.typeError, s) ∧
    setSetScaleFunc s PyVal.notCallable = (some PyErr.typeError, s) ∧
    (setSliderChangedCallback s (PyVal.callable f)).1 = none ∧
    (setGetScaleFunc s (PyVal.callable f)).1 = none ∧
    (setSetScaleFunc s (PyVal.callable f)).1 = none :=
  ⟨rfl, rfl, rfl, rfl, rfl, rfl⟩

/-- Claim C10: when the primary button is not down, OnMouseEvent raises
nothing, returns the state completely unchanged (both stored fields and
the scale/callback slots), and still emits exactly the redraw request
and the OnValueChanged notification. -/
theorem claim_C10 (width x : Int) (s : SliderState) :
    OnMouseEvent width x false s = (none, s, [Call.refresh, Call.onValueChanged]) :=
  rfl

/-- Claim C1 (amended): when the primary button is down and the track
is non-degenerate (width > 12), OnMouseEvent clamps the event
x-coordinate into the interval from padleft to width - padright -
padleft (that is, [4, width - 8]) and sets the normalized value to
clamp((xClamped - padleft) / (width - 12), 0, 1).  (The claim as
frozen used the divisor width - 8 and predicted 0.5 at x = 52 for
width 104; the code divides by width - 12, see the counterexample.) -/
theorem claim_C1 (width x : Int) (s : SliderState) (hw : 12 < width) :
    (OnMouseEvent width x true s).2.1.sliderPosX
      = max padleft (min (width - padright - padleft) x) ∧
    (OnMouseEvent width x true s).2.1.sliderNormX
      = max 0 (min 1
          (((max padleft (min (width - padright - padleft) x) - padleft : Int) : Rat)
            / ((width - 12 : Int) : Rat))) := by
  have hnz : width - padright - padleft - padleft ≠ 0 := by
    unfold padleft padright; omega
  rw [OnMouseEvent_down_eq width x s hnz]
  dsimp only
  constructor
  · exact xClamp_eq_max_min width x hw
  · rw [rClamp_eq_max_min, ← xClamp_eq_max_min width x hw]
    unfold normRaw
    rw [width_sub_pads]

/-- Witness for claim C1: the three scenario points at width 104; the
x = 52 point lands on 12/23, not 1/2. -/
theorem claim_C1_witness :
    (12 : Int) < 104 ∧
    (OnMouseEvent 104 4 true initState).2.1.sliderNormX = 0 ∧
    (OnMouseEvent 104 100 true initState).2.1.sliderNormX = 1 ∧
    (OnMouseEvent 104 52 true initState).2.1.sliderNormX = 12/23 := by
  refine ⟨by norm_num, ?_, ?_, ?_⟩
  · rw [(claim_C1 104 4 initState (by norm_num)).2]
    unfold padleft padright
    norm_num
  · rw [(claim_C1 104 100 initState (by norm_num)).2]
    unfold padleft padright
    norm_num
  · rw [(claim_C1 104 52 initState (by norm_num)).2]
    unfold padleft padright
    norm_num

/-- Counterexample for claim C1 as frozen: at client width 104 and
mouse x = 52, the normalized value stored by a button-down
OnMouseEvent is 12/23 (= 48/92), not the claimed 0.5. -/
theorem claim_C1_counterexample :
    (OnMouseEvent 104 52 true initState).2.1.sliderNormX = 12/23 ∧
    (OnMouseEvent 104 52 true initState).2.1.sliderNormX ≠ 1/2 := by
  have h : (OnMouseEvent 104 52 true initState).2.1.sliderNormX = 12/23 := by
    rw [OnMouseEvent_down_eq 104 52 initState (by unfold padleft padright; norm_num)]
    dsimp only
    rw [rClamp_eq_max_min]
    unfold normRaw xClamp padleft padright
    norm_num
  refine ⟨h, ?_⟩
  rw [h]
  norm_num

/-- Claim C2 (amended): SetValue stores the (optionally set-scaled)
value as the normalized value and recomputes the pixel position as
padleft + int((width - 12) * normalizedValue), truncation toward zero;
the bracket (bgEnd - bgStart) equals width - 12, not the width - 8 of
the frozen claim, so setValue(0.5) at width 104 yields pixel 50. -/
theorem claim_C2 (width : Int) (v : Rat) (s : SliderState)
    (hscale : s.setScaleFunc = none) :
    (SetValue width v s).1.sliderNormX = v ∧
    (SetValue width v s).1.sliderPosX
      = padleft + pyint (((width - 12 : Int) : Rat) * v) := by
  unfold SetValue
  rw [hscale]
  dsimp only
  rw [width_sub_pads]
  exact ⟨rfl, rfl⟩

/-- Witness for claim C2 at width 104, value 1/2, initial state. -/
theorem claim_C2_witness :
    initState.setScaleFunc = none ∧
    (SetValue 104 (1/2) initState).1.sliderNormX = 1/2 ∧
    (SetValue 104 (1/2) initState).1.sliderPosX
      = padleft + pyint (((104 - 12 : Int) : Rat) * (1/2)) :=
  ⟨rfl, (claim_C2 104 (1/2) initState rfl).1, (claim_C2 104 (1/2) initState rfl).2⟩

/-- Counterexample for claim C2 as frozen: setValue(0.5) at client
width 104 puts the pixel position at 4 + int(92 * 0.5) = 50, not the
claimed 52. -/
theorem claim_C2_counterexample :
    (SetValue 104 (1/2) initState).1.sliderPosX = 50 ∧
    (SetValue 104 (1/2) initState).1.sliderPosX ≠ 52 := by
  have h : (SetValue 104 (1/2) initState).1.sliderPosX = 50 := by
    unfold SetValue initState
    dsimp only
    unfold padleft padright pyint
    norm_num
  exact ⟨h, by rw [h]; norm_num⟩

/-- Claim C3 (amended): after a button-down OnMouseEvent that completes
without raising, the normalized value lies in [0, 1] and equals the
affine image (sliderPosX - padleft) / (width - 12) of the stored pixel
position, so the two fields are in sync; after SetValue the pixel
position is the padded truncated image padleft + int((width - 12) *
sliderNormX) of the stored normalized value, but that normalized value
is the (scaled) argument stored without clamping, and can lie outside
[0, 1] (see the counterexample). -/
theorem claim_C3 (width x : Int) (v : Rat) (s s' : SliderState) (calls : List Call)
    (h : OnMouseEvent width x true s = (none, s', calls)) :
    (0 ≤ s'.sliderNormX ∧ s'.sliderNormX ≤ 1 ∧
      s'.sliderNormX
        = ((s'.sliderPosX - padleft : Int) : Rat) / ((width - 12 : Int) : Rat)) ∧
    (SetValue width v s).1.sliderPosX
      = padleft + pyint (((width - 12 : Int) : Rat)
          * (SetValue width v s).1.sliderNormX) := by
  constructor
  · by_cases hw : width - padright - padleft - padleft = 0
    · rw [OnMouseEvent_div_zero width x s hw] at h
      exact absurd (congrArg Prod.fst h) (by simp)
    · rw [OnMouseEvent_down_eq width x s hw] at h
      have hs : s' = { s with sliderPosX := xClamp width x,
                              sliderNormX := rClamp (normRaw width x) } :=
        ((Prod.mk.injEq _ _ _ _).mp ((Prod.mk.injEq _ _ _ _).mp h).2).1.symm
      obtain ⟨hm0, hm1⟩ := normRaw_mem width x hw
      rw [hs]
      dsimp only
      rw [rClamp_eq_self _ hm0 hm1]
      refine ⟨hm0, hm1, ?_⟩
      unfold normRaw
      rw [width_sub_pads]
  · unfold SetValue
    dsimp only
    rw [width_sub_pads]

/-- Witness for claim C3 at width 104, x = 52, value 1/2, initial
state. -/
theorem claim_C3_witness :
    (0 ≤ (OnMouseEvent 104 52 true initState).2.1.sliderNormX ∧
      (OnMouseEvent 104 52 true initState).2.1.sliderNormX ≤ 1 ∧
      (OnMouseEvent 104 52 true initState).2.1.sliderNormX
        = (((OnMouseEvent 104 52 true initState).2.1.sliderPosX - padleft : Int) : Rat)
            / ((104 - 12 : Int) : Rat)) ∧
    (SetValue 104 (1/2) initState).1.sliderPosX
      = padleft + pyint (((104 - 12 : Int) : Rat)
          * (SetValue 104 (1/2) initState).1.sliderNormX) := by
  have h : OnMouseEvent 104 52 true initState =
      (none, (OnMouseEvent 104 52 true initState).2.1,
        (OnMouseEvent 104 52 true initState).2.2) := by
    rw [OnMouseEvent_down_eq 104 52 initState (by unfold padleft padright; norm_num)]
  exact claim_C3 104 52 (1/2) initState _ _ h

/-- Counterexample for claim C3 as frozen: SetValue performs no
clamping, so SetValue(2.0) at width 104 stores normalized value 2,
which is not in [0, 1]. -/
theorem claim_C3_counterexample :
    (SetValue 104 2 initState).1.sliderNormX = 2 ∧
    ¬((SetValue 104 2 initState).1.sliderNormX ≤ 1) := by
  have h : (SetValue 104 2 initState).1.sliderNormX = 2 := rfl
  exact ⟨h, by rw [h]; norm_num⟩

/-- Claim C7 (amended): the widget holds at most one callback (a single
Option-typed slot) and registering a new callable replaces the old one;
however, no operation of this file ever invokes the stored callback:
the traces of OnMouseEvent (any button state) and SetValue never
contain the invocation of _cbfunc, only the redraw request and the
no-op OnValueChanged hook. -/
theorem claim_C7 (width x : Int) (v : Rat) (d : Bool) (s : SliderState)
    (f g : Rat → Rat) :
    (setSliderChangedCallback { s with cbfunc := some g }
        (PyVal.callable f)).2.cbfunc = some f ∧
    Call.cbfuncInvoked ∉ (OnMouseEvent width x d s).2.2 ∧
    Call.cbfuncInvoked ∉ (SetValue width v s).2 := by
  refine ⟨rfl, ?_, ?_⟩
  · cases d
    · simp [OnMouseEvent]
    · by_cases hw : width - padright - padleft - padleft = 0
      · rw [OnMouseEvent_div_zero width x s hw]
        simp
      · rw [OnMouseEvent_down_eq width x s hw]
        simp
  · unfold SetValue
    simp

/-- Counterexample for claim C7 as frozen: register a callback, then
mutate the value with SetValue; the stored callback slot is occupied,
yet the trace of the mutation does not invoke it. -/
theorem claim_C7_counterexample :
    (setSliderChangedCallback initState (PyVal.callable (fun r => r))).2.cbfunc.isSome
      = true ∧
    Call.cbfuncInvoked ∉
      (SetValue 104 (1/2)
        (setSliderChangedCallback initState (PyVal.callable (fun r => r))).2).2 := by
  refine ⟨rfl, ?_⟩
  unfold SetValue
  simp

/-- Claim C9: for v in [0, 1], no set-scale transform, and a
non-degenerate track (width > 12 so the divisor is positive), the pixel
position written by SetValue(v), when forward-mapped through
(pixel - padleft) / (width - 12), reproduces v within one pixel of
quantization: the error is at most 1 / (width - 12). -/
theorem claim_C9 (width : Int) (v : Rat) (s : SliderState)
    (hscale : s.setScaleFunc = none) (hw : 12 < width)
    (h0 : 0 ≤ v) (h1 : v ≤ 1) :
    |v - (((SetValue width v s).1.sliderPosX - padleft : Int) : Rat)
        / ((width - 12 : Int) : Rat)|
      ≤ 1 / ((width - 12 : Int) : Rat) := by
  have hD : (0 : Rat) < ((width - 12 : Int) : Rat) := by
    have : (0 : Int) < width - 12 := by omega
    exact_mod_cast this
  have hpos : (SetValue width v s).1.sliderPosX
      = padleft + ⌊((width - 12 : Int) : Rat) * v⌋ := by
    unfold SetValue
    rw [hscale]
    dsimp only
    rw [width_sub_pads]
    unfold pyint
    rw [if_pos (mul_nonneg hD.le h0)]
  rw [hpos]
  have hnum : (padleft + ⌊((width - 12 : Int) : Rat) * v⌋ - padleft : Int)
      = ⌊((width - 12 : Int) : Rat) * v⌋ := by omega
  rw [hnum]
  set D : Rat := ((width - 12 : Int) : Rat) with hDdef
  have hfloor_le : ((⌊D * v⌋ : Int) : Rat) ≤ D * v := Int.floor_le _
  have hlt : D * v - 1 < ((⌊D * v⌋ : Int) : Rat) := Int.sub_one_lt_floor _
  have hrw : v - ((⌊D * v⌋ : Int) : Rat) / D = (D * v - ((⌊D * v⌋ : Int) : Rat)) / D := by
    rw [sub_div, mul_div_cancel_left₀ v hD.ne']
  rw [hrw, abs_of_nonneg (div_nonneg (by linarith) hD.le), div_le_div_iff₀ hD hD]
  nlinarith

/-- Witness for claim C9 at width 104, value 1/2, initial state. -/
theorem claim_C9_witness :
    initState.setScaleFunc = none ∧ (12 : Int) < 104 ∧
    (0 : Rat) ≤ 1/2 ∧ (1 : Rat)/2 ≤ 1 ∧
    |(1 : Rat)/2 - (((SetValue 104 (1/2) initState).1.sliderPosX - padleft : Int) : Rat)
        / ((104 - 12 : Int) : Rat)|
      ≤ 1 / ((104 - 12 : Int) : Rat) :=
  ⟨rfl, by norm_num, by norm_num, by norm_num,
    claim_C9 104 (1/2) initState rfl (by norm_num) (by norm_num) (by norm_num)⟩

end ColorSlider
